import Mathlib

/-!
Shallow embedding of the cookiwoo recipe API (users, recipes, tags,
ingredients, token auth, image upload).

The repository ships `app/user/serializers.py` as source together with the
API test suites; the view layer, models and recipe serializers are not part
of the source tree, so those operations are modelled from the specification
(each such definition carries a doc comment starting `Modelled from the
spec:`).  `UserSerializer` / `AuthTokenSerializer` are translated directly
from `app/user/serializers.py`.
-/

namespace Cookiwoo

/-- Password hashing (`set_password` / `check_password`).  Modelled as an
injective tagging function: the stored value is never the raw password. -/
def hashPassword (p : String) : String := "pbkdf2$" ++ p

/-- A user row: unique email (identity), password hash, display name,
optional image path. -/
structure User where
  id : Nat
  email : String
  passwordHash : String
  name : String
  image : Option String
deriving Repr, DecidableEq

/-- A tag row: name plus owner. -/
structure Tag where
  id : Nat
  name : String
  userId : Nat
deriving Repr, DecidableEq

/-- An ingredient row: name plus owner. -/
structure Ingredient where
  id : Nat
  name : String
  userId : Nat
deriving Repr, DecidableEq

/-- A recipe row: scalar attributes, owner, optional image, and the
many-to-many relation sets to tags and ingredients (kept as id lists
without duplicates; order irrelevant). -/
structure Recipe where
  id : Nat
  title : String
  timeMinutes : Nat
  priceCents : Nat
  userId : Nat
  image : Option String
  tags : List Nat
  ingredients : List Nat
deriving Repr, DecidableEq

/-- The backing store: all persisted rows plus the issued auth tokens
(token string mapped to user id). -/
structure Store where
  users : List User
  tags : List Tag
  ingredients : List Ingredient
  recipes : List Recipe
  tokens : List (String × Nat)
deriving Repr, DecidableEq

/-- HTTP-level outcome of an endpoint call. -/
inductive Response (α : Type) where
  | ok (a : α)
  | created (a : α)
  | badRequest
  | unauthorized
  | notFound
deriving Repr, DecidableEq

/-- Numeric HTTP status of a response. -/
def Response.status {α : Type} : Response α → Nat
  | .ok _ => 200
  | .created _ => 201
  | .badRequest => 400
  | .unauthorized => 401
  | .notFound => 404

/-- Modelled from the spec: the token authentication middleware (not under
`src/`): a bearer token authenticates as the user it was issued to; a
missing or unknown token authenticates nobody. -/
def authenticate (st : Store) (auth : Option String) : Option Nat :=
  match auth with
  | none => none
  | some tok => (st.tokens.find? (fun p => p.1 == tok)).map Prod.snd

/-! ### User serializers (translated from `app/user/serializers.py`) -/

/-- Validated data of a user create request (all fields required by the
serializer; `image` optional). -/
structure UserCreateData where
  email : String
  password : String
  name : String
deriving Repr, DecidableEq

/-- Validated data of a `/user/me/` PATCH request: every serializer field
may be present or absent. -/
structure UserPatchData where
  email : Option String
  password : Option String
  name : Option String
  image : Option String
deriving Repr, DecidableEq

/-- The generic `ModelSerializer.update`: `setattr` of every key present in
`validated_data`, including a raw `password` value if one is still there. -/
def modelUpdate (u : User) (d : UserPatchData) : User :=
  { u with
    email := d.email.getD u.email
    name := d.name.getD u.name
    image := match d.image with | none => u.image | some s => some s
    passwordHash := d.password.getD u.passwordHash }

/-- `UserSerializer.update`: pop `password` out of the validated data, run
the generic update on the rest, then `set_password` only when a truthy
(non-empty) password was supplied. -/
def userSerializerUpdate (inst : User) (validated : UserPatchData) : User :=
  let password := validated.password
  let user := modelUpdate inst { validated with password := none }
  match password with
  | some p => if p ≠ "" then { user with passwordHash := hashPassword p } else user
  | none => user

/-- `UserSerializer` field validation for create: `password` has
`min_length = 12`; `email` is a required non-blank field; email unique
(duplicate email yields a validation error). -/
def userCreateValid (st : Store) (d : UserCreateData) : Bool :=
  12 ≤ d.password.length && !d.email.isEmpty
    && st.users.all (fun u => u.email != d.email)

/-- `UserSerializer` field validation for a `/me/` PATCH: same field rules,
applied only to the supplied fields (`self.user` excluded from the
uniqueness check). -/
def userPatchValid (st : Store) (uid : Nat) (d : UserPatchData) : Bool :=
  (match d.password with | none => true | some p => 12 ≤ p.length)
    && (match d.email with
        | none => true
        | some e => !e.isEmpty && st.users.all (fun u => u.id == uid || u.email != e))

/-- Next fresh primary key for a list of rows keyed by `id`. -/
def freshId (ids : List Nat) : Nat := ids.foldr max 0 + 1

/-- Modelled from the spec: `POST /user/create/` (view not under `src/`):
validates via `UserSerializer`, persists the user with a hashed password on
success (201), otherwise 400 with the store unchanged. -/
def createUserEndpoint (st : Store) (d : UserCreateData) : Response User × Store :=
  if userCreateValid st d then
    let u : User :=
      { id := freshId (st.users.map User.id)
        email := d.email
        passwordHash := hashPassword d.password
        name := d.name
        image := none }
    (.created u, { st with users := u :: st.users })
  else (.badRequest, st)

/-- `AuthTokenSerializer` validation plus authentication: `email` is a
required non-blank CharField, `password` a CharField with `min_length = 12`
and no whitespace trimming; then `authenticate` looks for a user whose
email and password match; failure of any step raises the same
`ValidationError` class. -/
def authTokenValidate (st : Store) (email password : String) : Option User :=
  if email.isEmpty || password.length < 12 then none
  else st.users.find? (fun u => u.email == email && u.passwordHash == hashPassword password)

/-- Modelled from the spec: `POST /user/token/` (view not under `src/`):
runs `AuthTokenSerializer`, issues an opaque token for the authenticated
user on success (200), otherwise 400 with no token and the store
unchanged. -/
def createTokenEndpoint (st : Store) (email password : String) : Response String × Store :=
  match authTokenValidate st email password with
  | none => (.badRequest, st)
  | some u =>
      let tok := "tok-" ++ toString u.id ++ "-" ++ toString st.tokens.length
      (.ok tok, { st with tokens := (tok, u.id) :: st.tokens })

/-! ### Recipe endpoints (views and recipe serializers not under `src/`) -/

/-- Split a character list at every comma (`str.split(",")`). -/
def splitComma : List Char → List (List Char)
  | [] => [[]]
  | c :: cs =>
    match splitComma cs with
    | [] => [[]]
    | cur :: rest =>
      if c = ',' then [] :: cur :: rest else (c :: cur) :: rest

/-- Strip surrounding whitespace from a character list, as `int(...)`
does before converting. -/
def stripChars (cs : List Char) : List Char :=
  ((cs.dropWhile Char.isWhitespace).reverse.dropWhile Char.isWhitespace).reverse

/-- Convert a non-empty digit sequence to a number (`int(...)`). -/
def parseNatChars (cs : List Char) : Option Nat :=
  if cs ≠ [] ∧ cs.all Char.isDigit then
    some (cs.foldl (fun n c => n * 10 + (c.toNat - 48)) 0)
  else none

/-- Modelled from the spec: parsing of a `tags` / `ingredients` query
parameter, a comma-separated list of ids (`int(...)` tolerates surrounding
whitespace, as the tests exercise with `"id1, id2"`). -/
def parseIdList (s : String) : List Nat :=
  (splitComma s.data).filterMap (fun part => parseNatChars (stripChars part))

/-- Does the recipe's tag set intersect the given id set? -/
def recipeHasTagIn (ids : List Nat) (r : Recipe) : Bool :=
  r.tags.any (fun t => ids.contains t)

/-- Does the recipe's ingredient set intersect the given id set? -/
def recipeHasIngredientIn (ids : List Nat) (r : Recipe) : Bool :=
  r.ingredients.any (fun i => ids.contains i)

/-- Modelled from the spec: the recipe list query — scoped to the
requester, optionally restricted to recipes whose tag (ingredient) set
intersects the ids of the `tags` (`ingredients`) parameter. -/
def listRecipes (st : Store) (uid : Nat)
    (tagsParam ingredientsParam : Option String) : List Recipe :=
  let base := st.recipes.filter (fun r => r.userId == uid)
  let base := match tagsParam with
    | none => base
    | some s => base.filter (recipeHasTagIn (parseIdList s))
  match ingredientsParam with
  | none => base
  | some s => base.filter (recipeHasIngredientIn (parseIdList s))

/-- Modelled from the spec: `GET /recipe/recipes/` — auth required,
then the owner-scoped, optionally filtered list. -/
def recipeListEndpoint (st : Store) (auth : Option String)
    (tagsParam ingredientsParam : Option String) : Response (List Recipe) × Store :=
  match authenticate st auth with
  | none => (.unauthorized, st)
  | some uid => (.ok (listRecipes st uid tagsParam ingredientsParam), st)

/-- Modelled from the spec: the tag list endpoint — rows scoped to the
requester. -/
def listTags (st : Store) (uid : Nat) : List Tag :=
  st.tags.filter (fun t => t.userId == uid)

/-- Modelled from the spec: the ingredient list endpoint — rows scoped to
the requester. -/
def listIngredients (st : Store) (uid : Nat) : List Ingredient :=
  st.ingredients.filter (fun i => i.userId == uid)

/-- Modelled from the spec: `GET /recipe/recipes/{id}/` — auth required;
the object is looked up among the requester's own recipes (another user's
recipe is not found). -/
def recipeDetailEndpoint (st : Store) (auth : Option String) (rid : Nat) :
    Response Recipe × Store :=
  match authenticate st auth with
  | none => (.unauthorized, st)
  | some uid =>
    match st.recipes.find? (fun r => r.id == rid && r.userId == uid) with
    | none => (.notFound, st)
    | some r => (.ok r, st)

/-- Body of a recipe create or full-update (PUT) request: scalar fields
required, relation id lists optional. -/
structure RecipeWriteData where
  title : String
  timeMinutes : Nat
  priceCents : Nat
  tags : Option (List Nat)
  ingredients : Option (List Nat)
deriving Repr, DecidableEq

/-- Body of a recipe PATCH request: every field optional. -/
structure RecipePatchData where
  title : Option String
  timeMinutes : Option Nat
  priceCents : Option Nat
  tags : Option (List Nat)
  ingredients : Option (List Nat)
deriving Repr, DecidableEq

/-- Modelled from the spec: relation-id validation of the recipe
serializer — unknown tag or ingredient ids fail validation. -/
def relationIdsValid (st : Store) (tagIds ingredientIds : Option (List Nat)) : Bool :=
  (tagIds.getD []).all (fun t => st.tags.any (fun tg => tg.id == t))
    && (ingredientIds.getD []).all (fun i => st.ingredients.any (fun ig => ig.id == i))

/-- Modelled from the spec: `POST /recipe/recipes/` — auth required;
validated relation ids; the created recipe holds exactly the given tag and
ingredient sets (the many-to-many set collapses duplicates), an omitted
list meaning the empty set. -/
def recipeCreateEndpoint (st : Store) (auth : Option String) (d : RecipeWriteData) :
    Response Recipe × Store :=
  match authenticate st auth with
  | none => (.unauthorized, st)
  | some uid =>
    if relationIdsValid st d.tags d.ingredients then
      let r : Recipe :=
        { id := freshId (st.recipes.map Recipe.id)
          title := d.title
          timeMinutes := d.timeMinutes
          priceCents := d.priceCents
          userId := uid
          image := none
          tags := (d.tags.getD []).dedup
          ingredients := (d.ingredients.getD []).dedup }
      (.created r, { st with recipes := r :: st.recipes })
    else (.badRequest, st)

/-- Full replace of a recipe's writable fields: every scalar is overwritten
and an omitted relation list clears the relation set to empty. -/
def applyPut (r : Recipe) (d : RecipeWriteData) : Recipe :=
  { r with
    title := d.title
    timeMinutes := d.timeMinutes
    priceCents := d.priceCents
    tags := (d.tags.getD []).dedup
    ingredients := (d.ingredients.getD []).dedup }

/-- Apply a PATCH: only the supplied fields change; a supplied relation
list replaces the relation set entirely. -/
def applyPatch (r : Recipe) (d : RecipePatchData) : Recipe :=
  { r with
    title := d.title.getD r.title
    timeMinutes := d.timeMinutes.getD r.timeMinutes
    priceCents := d.priceCents.getD r.priceCents
    tags := match d.tags with | none => r.tags | some ts => ts.dedup
    ingredients := match d.ingredients with | none => r.ingredients | some is => is.dedup }

/-- Replace the recipe with primary key `rid` by `r2` in the store. -/
def storeRecipe (st : Store) (rid : Nat) (r2 : Recipe) : Store :=
  { st with recipes := st.recipes.map (fun x => if x.id == rid then r2 else x) }

/-- Modelled from the spec: `PUT /recipe/recipes/{id}/` — auth, owner-scoped
lookup, relation-id validation, then full replace. -/
def recipePutEndpoint (st : Store) (auth : Option String) (rid : Nat)
    (d : RecipeWriteData) : Response Recipe × Store :=
  match authenticate st auth with
  | none => (.unauthorized, st)
  | some uid =>
    match st.recipes.find? (fun r => r.id == rid && r.userId == uid) with
    | none => (.notFound, st)
    | some r =>
      if relationIdsValid st d.tags d.ingredients then
        let r2 := applyPut r d
        (.ok r2, storeRecipe st rid r2)
      else (.badRequest, st)

/-- Modelled from the spec: `PATCH /recipe/recipes/{id}/` — auth,
owner-scoped lookup, relation-id validation, then the update of the
supplied fields only. -/
def recipePatchEndpoint (st : Store) (auth : Option String) (rid : Nat)
    (d : RecipePatchData) : Response Recipe × Store :=
  match authenticate st auth with
  | none => (.unauthorized, st)
  | some uid =>
    match st.recipes.find? (fun r => r.id == rid && r.userId == uid) with
    | none => (.notFound, st)
    | some r =>
      if relationIdsValid st d.tags d.ingredients then
        let r2 := applyPatch r d
        (.ok r2, storeRecipe st rid r2)
      else (.badRequest, st)

/-- A multipart image upload payload: a file name plus raw content. -/
structure ImagePayload where
  filename : String
  content : String
deriving Repr, DecidableEq

/-- Does the first list start the second one? -/
def startsWithChars : List Char → List Char → Bool
  | [], _ => true
  | _ :: _, [] => false
  | p :: ps, c :: cs => p = c && startsWithChars ps cs

/-- Modelled from the spec: the framework image-field check — the payload
must decode as an actual image; modelled as recognising a known image
signature at the start of the content (the tests upload a JPEG and reject
the plain string "invalid"). -/
def isValidImage (p : ImagePayload) : Bool :=
  startsWithChars ['\xff', '\xd8'] p.content.data
    || startsWithChars ['\x89', 'P', 'N', 'G'] p.content.data

/-- Modelled from the spec: `POST /recipe/recipes/{id}/upload-image/` —
auth, owner-scoped lookup; a valid image replaces the stored image (200),
an invalid payload yields 400 with no change. -/
def recipeUploadImageEndpoint (st : Store) (auth : Option String) (rid : Nat)
    (p : ImagePayload) : Response (Option String) × Store :=
  match authenticate st auth with
  | none => (.unauthorized, st)
  | some uid =>
    match st.recipes.find? (fun r => r.id == rid && r.userId == uid) with
    | none => (.notFound, st)
    | some r =>
      if isValidImage p then
        let r2 := { r with image := some p.filename }
        (.ok r2.image, storeRecipe st rid r2)
      else (.badRequest, st)

/-! ### User profile endpoints (views not under `src/`) -/

/-- Modelled from the spec: `GET /user/me/` — auth required; returns the
requester's name, email and image. -/
def meGetEndpoint (st : Store) (auth : Option String) :
    Response (String × String × Option String) × Store :=
  match authenticate st auth with
  | none => (.unauthorized, st)
  | some uid =>
    match st.users.find? (fun u => u.id == uid) with
    | none => (.unauthorized, st)
    | some u => (.ok (u.name, u.email, u.image), st)

/-- Modelled from the spec: `PATCH /user/me/` — auth required; validates
the supplied fields, then updates via `UserSerializer.update`. -/
def mePatchEndpoint (st : Store) (auth : Option String) (d : UserPatchData) :
    Response User × Store :=
  match authenticate st auth with
  | none => (.unauthorized, st)
  | some uid =>
    match st.users.find? (fun u => u.id == uid) with
    | none => (.unauthorized, st)
    | some u =>
      if userPatchValid st uid d then
        let u2 := userSerializerUpdate u d
        (.ok u2, { st with users := st.users.map (fun x => if x.id == uid then u2 else x) })
      else (.badRequest, st)

/-- Modelled from the spec: `POST /user/upload-image/` — auth required; a
valid image replaces the requester's stored image (200), an invalid
payload yields 400 with no change. -/
def userUploadImageEndpoint (st : Store) (auth : Option String) (p : ImagePayload) :
    Response (Option String) × Store :=
  match authenticate st auth with
  | none => (.unauthorized, st)
  | some uid =>
    match st.users.find? (fun u => u.id == uid) with
    | none => (.unauthorized, st)
    | some u =>
      if isValidImage p then
        let u2 := { u with image := some p.filename }
        (.ok u2.image, { st with users := st.users.map (fun x => if x.id == uid then u2 else x) })
      else (.badRequest, st)

/-! ### Concrete fixtures (mirroring the test suites' sample data) -/

/-- Sample user, as in the tests' `setUp`. -/
def u1 : User :=
  { id := 1, email := "test@gawlowski.com.pl"
    passwordHash := hashPassword "password1234"
    name := "Test API User", image := none }

/-- A second user, as in `test_recipes_limited_to_user`. -/
def u2 : User :=
  { id := 2, email := "test2@gawlowski.com.pl"
    passwordHash := hashPassword "password1234"
    name := "Other API User", image := none }

/-- Sample tag owned by `u1`. -/
def tagVegan : Tag := { id := 1, name := "Vegan", userId := 1 }

/-- A second tag owned by `u1`. -/
def tagVegetarian : Tag := { id := 2, name := "Vegetarian", userId := 1 }

/-- Sample ingredient owned by `u1`. -/
def ingFeta : Ingredient := { id := 1, name := "Feta cheese", userId := 1 }

/-- A second ingredient owned by `u1`. -/
def ingChicken : Ingredient := { id := 2, name := "Chicken", userId := 1 }

/-- A recipe of `u1` carrying the first tag and ingredient. -/
def rcp1 : Recipe :=
  { id := 1, title := "Thai vegetable curry", timeMinutes := 10, priceCents := 500
    userId := 1, image := none, tags := [1], ingredients := [1] }

/-- A recipe of `u1` carrying the second tag and ingredient. -/
def rcp2 : Recipe :=
  { id := 2, title := "Aubergine with tahini", timeMinutes := 10, priceCents := 500
    userId := 1, image := none, tags := [2], ingredients := [2] }

/-- A recipe of `u1` with empty relation sets. -/
def rcp3 : Recipe :=
  { id := 3, title := "Fish and chips", timeMinutes := 10, priceCents := 500
    userId := 1, image := none, tags := [], ingredients := [] }

/-- A recipe owned by the second user. -/
def rcpOther : Recipe :=
  { id := 4, title := "Sample Recipe", timeMinutes := 10, priceCents := 500
    userId := 2, image := none, tags := [], ingredients := [] }

/-- The sample store: both users, the tags/ingredients of `u1`, four
recipes, and one token issued to `u1`. -/
def sampleStore : Store :=
  { users := [u1, u2]
    tags := [tagVegan, tagVegetarian]
    ingredients := [ingFeta, ingChicken]
    recipes := [rcp1, rcp2, rcp3, rcpOther]
    tokens := [("tok1", 1)] }

/-! ### Helper lemmas -/

/-- Membership characterisation of the owner-scoped, filtered recipe
list. -/
theorem mem_listRecipes_iff (st : Store) (uid : Nat) (tp ip : Option String)
    (r : Recipe) :
    r ∈ listRecipes st uid tp ip ↔
      r ∈ st.recipes ∧ r.userId = uid ∧
      (∀ s, tp = some s → ∃ t ∈ r.tags, t ∈ parseIdList s) ∧
      (∀ s, ip = some s → ∃ i ∈ r.ingredients, i ∈ parseIdList s) := by
  cases tp <;> cases ip <;>
    simp [listRecipes, List.mem_filter, recipeHasTagIn, recipeHasIngredientIn,
      List.any_eq_true, and_assoc] <;>
    intro _ <;> tauto

/-- `hashPassword` is injective: distinct raw passwords hash apart. -/
theorem hashPassword_inj (a b : String) (h : hashPassword a = hashPassword b) :
    a = b := by
  have hd := congrArg String.data h
  simp only [hashPassword, String.data_append] at hd
  exact String.ext (List.append_cancel_left hd)

/-- Deduplication does not change a list's underlying finite set. -/
theorem toFinset_dedup_list (l : List Nat) : l.dedup.toFinset = l.toFinset := by
  ext a
  simp [List.mem_toFinset, List.mem_dedup]

/-- The hash is strictly longer than the raw password, hence distinct from
it. -/
theorem hashPassword_ne_raw (p : String) : hashPassword p ≠ p := by
  intro h
  have := congrArg String.length h
  simp [hashPassword, String.length_append] at this
  exact absurd this (by decide)

/-! ### Claims -/

/-- C1: ownership invariant — every Recipe, Tag and Ingredient row is
visible only to requests authenticated as its owner: the recipe list
endpoint returns only rows owned by the authenticated user (for any
population of the store and any filter parameters), the detail endpoint
serves only the requester's own recipe, and the tag / ingredient list
queries are scoped to the requester. -/
theorem claim1_ownership (st : Store) (auth : Option String)
    (tp ip : Option String) (rid : Nat) :
    (∀ l st', recipeListEndpoint st auth tp ip = (.ok l, st') →
      ∀ r ∈ l, authenticate st auth = some r.userId) ∧
    (∀ r st', recipeDetailEndpoint st auth rid = (.ok r, st') →
      authenticate st auth = some r.userId) ∧
    (∀ uid, authenticate st auth = some uid →
      (∀ t ∈ listTags st uid, t.userId = uid) ∧
      (∀ i ∈ listIngredients st uid, i.userId = uid)) := by
  refine ⟨?_, ?_, ?_⟩
  · intro l st' h r hr
    cases hauth : authenticate st auth with
    | none => simp [recipeListEndpoint, hauth] at h
    | some uid =>
      simp [recipeListEndpoint, hauth] at h
      rcases h with ⟨rfl, rfl⟩
      have hm := (mem_listRecipes_iff st uid tp ip r).mp hr
      rw [hm.2.1]
  · intro r st' h
    cases hauth : authenticate st auth with
    | none => simp [recipeDetailEndpoint, hauth] at h
    | some uid =>
      cases hfind : st.recipes.find? (fun x => x.id == rid && x.userId == uid) with
      | none => simp [recipeDetailEndpoint, hauth, hfind] at h
      | some r0 =>
        simp [recipeDetailEndpoint, hauth, hfind] at h
        rcases h with ⟨rfl, rfl⟩
        have hp := List.find?_some hfind
        simp at hp
        rw [hp.2]
  · intro uid _
    constructor <;> intro x hx <;>
      simp [listTags, listIngredients, List.mem_filter] at hx <;> exact hx.2

/-- C1 witness: on the sample store, the authenticated user of token
`tok1` owns the first recipe returned by the list endpoint. -/
theorem claim1_ownership_witness :
    authenticate sampleStore (some "tok1") = some rcp1.userId :=
  (claim1_ownership sampleStore (some "tok1") none none 1).1
    [rcp1, rcp2, rcp3] sampleStore rfl rcp1 (List.mem_cons_self rcp1 _)

/-- C2: every recipe / user-profile endpoint called without a valid bearer
token answers 401 and leaves the store untouched (user creation and token
issuance are the only public endpoints and take no token). -/
theorem claim2_unauthenticated_401 (st : Store) (auth : Option String)
    (tp ip : Option String) (rid : Nat) (wd : RecipeWriteData)
    (pd : RecipePatchData) (img : ImagePayload) (ud : UserPatchData)
    (h : authenticate st auth = none) :
    ((recipeListEndpoint st auth tp ip).1.status = 401 ∧
      (recipeListEndpoint st auth tp ip).2 = st) ∧
    ((recipeDetailEndpoint st auth rid).1.status = 401 ∧
      (recipeDetailEndpoint st auth rid).2 = st) ∧
    ((recipeCreateEndpoint st auth wd).1.status = 401 ∧
      (recipeCreateEndpoint st auth wd).2 = st) ∧
    ((recipePutEndpoint st auth rid wd).1.status = 401 ∧
      (recipePutEndpoint st auth rid wd).2 = st) ∧
    ((recipePatchEndpoint st auth rid pd).1.status = 401 ∧
      (recipePatchEndpoint st auth rid pd).2 = st) ∧
    ((recipeUploadImageEndpoint st auth rid img).1.status = 401 ∧
      (recipeUploadImageEndpoint st auth rid img).2 = st) ∧
    ((meGetEndpoint st auth).1.status = 401 ∧
      (meGetEndpoint st auth).2 = st) ∧
    ((mePatchEndpoint st auth ud).1.status = 401 ∧
      (mePatchEndpoint st auth ud).2 = st) ∧
    ((userUploadImageEndpoint st auth img).1.status = 401 ∧
      (userUploadImageEndpoint st auth img).2 = st) := by
  simp [recipeListEndpoint, recipeDetailEndpoint, recipeCreateEndpoint,
    recipePutEndpoint, recipePatchEndpoint, recipeUploadImageEndpoint,
    meGetEndpoint, mePatchEndpoint, userUploadImageEndpoint, h, Response.status]

/-- C2 witness: a token-less list request against the sample store is
answered 401. -/
theorem claim2_unauthenticated_401_witness :
    (recipeListEndpoint sampleStore none none none).1.status = 401 :=
  (claim2_unauthenticated_401 sampleStore none none none 1
    ⟨"t", 1, 1, none, none⟩ ⟨none, none, none, none, none⟩ ⟨"f", "x"⟩
    ⟨none, none, none, none⟩ rfl).1.1

/-- Reachable-store invariant established by the user-creation endpoint:
every stored user has a non-blank email and a password hash produced from
a raw password of the serializer's minimum length. -/
def StoreWF (st : Store) : Prop :=
  ∀ u ∈ st.users,
    u.email ≠ "" ∧ ∃ p, 12 ≤ p.length ∧ u.passwordHash = hashPassword p

/-- A validated create request has a password of the minimum length. -/
theorem userCreateValid_pwlen {st : Store} {d : UserCreateData}
    (h : userCreateValid st d = true) : 12 ≤ d.password.length := by
  simp [userCreateValid] at h
  exact h.1.1

/-- A validated create request has a non-blank email. -/
theorem userCreateValid_email {st : Store} {d : UserCreateData}
    (h : userCreateValid st d = true) : d.email ≠ "" := by
  simp [userCreateValid] at h
  intro he
  exact absurd (he ▸ h.1.2) (by decide)

/-- User creation preserves the reachable-store invariant. -/
theorem createUser_preserves_WF (st : Store) (d : UserCreateData)
    (hwf : StoreWF st) : StoreWF (createUserEndpoint st d).2 := by
  by_cases hv : userCreateValid st d = true
  · intro u hu
    simp [createUserEndpoint, hv] at hu
    rcases hu with rfl | hu
    · exact ⟨userCreateValid_email hv, d.password, userCreateValid_pwlen hv, rfl⟩
    · exact hwf u hu
  · intro u hu
    simp [createUserEndpoint, hv] at hu
    exact hwf u hu

/-- The sample store satisfies the reachable-store invariant. -/
theorem sampleStore_WF : StoreWF sampleStore := by
  intro u hu
  simp [sampleStore] at hu
  rcases hu with rfl | rfl
  · exact ⟨by decide, "password1234", by decide, rfl⟩
  · exact ⟨by decide, "password1234", by decide, rfl⟩

/-- C3: the token issuance operation returns an opaque token exactly when
the submitted email and password match a stored user (over stores reachable
through the API, whose users all carry non-blank emails and hashes of
passwords of the serializer's minimum length); on every failure — blank or
short field, wrong password, nonexistent user — it answers with the same
validation-error response and no token, leaving the store unchanged. -/
theorem claim3_token_iff (st : Store) (email password : String)
    (hwf : StoreWF st) :
    ((∃ tok st', createTokenEndpoint st email password = (.ok tok, st')) ↔
      ∃ u ∈ st.users, u.email = email ∧ u.passwordHash = hashPassword password) ∧
    ((¬ ∃ u ∈ st.users, u.email = email ∧ u.passwordHash = hashPassword password) →
      createTokenEndpoint st email password = (.badRequest, st)) := by
  cases hguard : (email.isEmpty || decide (password.length < 12)) with
  | true =>
    have hval : authTokenValidate st email password = none := by
      simp only [authTokenValidate]
      rw [if_pos]
      simpa using hguard
    have hend : createTokenEndpoint st email password = (.badRequest, st) := by
      simp [createTokenEndpoint, hval]
    have hno : ¬ ∃ u ∈ st.users,
        u.email = email ∧ u.passwordHash = hashPassword password := by
      rintro ⟨u, hu, he, hh⟩
      obtain ⟨hne, p, hlen, hp⟩ := hwf u hu
      simp [Bool.or_eq_true] at hguard
      rcases hguard with hg | hg
      · exact hne (by rw [he]; exact (String.isEmpty_iff email).mp hg)
      · have hpe : password = p := hashPassword_inj password p (by rw [← hh, hp])
        rw [hpe] at hg
        omega
    refine ⟨⟨?_, fun h => absurd h hno⟩, fun _ => hend⟩
    rintro ⟨tok, st', h⟩
    rw [hend] at h
    exact absurd h (by simp)
  | false =>
    have hval : authTokenValidate st email password =
        st.users.find? (fun u => u.email == email
          && u.passwordHash == hashPassword password) := by
      simp only [authTokenValidate]
      rw [if_neg]
      simpa using hguard
    cases hfind : st.users.find? (fun u => u.email == email
        && u.passwordHash == hashPassword password) with
    | some u =>
      have hmem := List.mem_of_find?_eq_some hfind
      have hp := List.find?_some hfind
      simp at hp
      have hex : ∃ u ∈ st.users,
          u.email = email ∧ u.passwordHash = hashPassword password :=
        ⟨u, hmem, hp.1, hp.2⟩
      refine ⟨⟨fun _ => hex, fun _ => ?_⟩, fun h => absurd hex h⟩
      refine ⟨"tok-" ++ toString u.id ++ "-" ++ toString st.tokens.length,
        { st with tokens :=
          ("tok-" ++ toString u.id ++ "-" ++ toString st.tokens.length, u.id)
            :: st.tokens }, ?_⟩
      simp [createTokenEndpoint, hval, hfind]
    | none =>
      have hend : createTokenEndpoint st email password = (.badRequest, st) := by
        simp [createTokenEndpoint, hval, hfind]
      have hno : ¬ ∃ u ∈ st.users,
          u.email = email ∧ u.passwordHash = hashPassword password := by
        rintro ⟨u, hu, he, hh⟩
        have := List.find?_eq_none.mp hfind u hu
        simp [he, hh] at this
      refine ⟨⟨?_, fun h => absurd h hno⟩, fun _ => hend⟩
      rintro ⟨tok, st', h⟩
      rw [hend] at h
      exact absurd h (by simp)

/-- C3 witness: the sample user's credentials yield a token. -/
theorem claim3_token_iff_witness :
    ∃ tok st', createTokenEndpoint sampleStore "test@gawlowski.com.pl"
      "password1234" = (Response.ok tok, st') :=
  (claim3_token_iff sampleStore "test@gawlowski.com.pl" "password1234"
    sampleStore_WF).1.mpr ⟨u1, by simp [sampleStore], rfl, rfl⟩

/-- C4: a user-creation request whose password is shorter than 12
characters is rejected with a validation failure, the store is unchanged
and in particular the set of user rows carrying the requested email is
exactly what it was before. -/
theorem claim4_short_password (st : Store) (d : UserCreateData)
    (h : d.password.length < 12) :
    createUserEndpoint st d = (.badRequest, st) ∧
    (createUserEndpoint st d).2.users.filter (fun u => u.email == d.email)
      = st.users.filter (fun u => u.email == d.email) := by
  have hlt : ¬ (12 ≤ d.password.length) := by omega
  have hv : userCreateValid st d = false := by
    simp [userCreateValid, hlt]
  have heq : createUserEndpoint st d = (.badRequest, st) := by
    simp [createUserEndpoint, hv]
  exact ⟨heq, by rw [heq]⟩

/-- C4 witness: the 8-character password "password" is rejected and the
sample store stays as it was. -/
theorem claim4_short_password_witness :
    createUserEndpoint sampleStore
      ⟨"new@gawlowski.com.pl", "password", "Test API User"⟩
      = (Response.badRequest, sampleStore) :=
  (claim4_short_password sampleStore
    ⟨"new@gawlowski.com.pl", "password", "Test API User"⟩ (by decide)).1

/-- C5: a list request with a `tags` (`ingredients`) query parameter
returns exactly the requester's recipes whose tag (ingredient) set
intersects the parsed id set; a recipe with no matching relation row is
excluded. -/
theorem claim5_filter_intersection (st : Store) (uid : Nat) (s : String)
    (r : Recipe) :
    (r ∈ listRecipes st uid (some s) none ↔
      r ∈ st.recipes ∧ r.userId = uid ∧ ∃ t ∈ r.tags, t ∈ parseIdList s) ∧
    (r ∈ listRecipes st uid none (some s) ↔
      r ∈ st.recipes ∧ r.userId = uid ∧ ∃ i ∈ r.ingredients, i ∈ parseIdList s) := by
  constructor
  · rw [mem_listRecipes_iff]
    simp
  · rw [mem_listRecipes_iff]
    simp

/-- C5 witness: with `tags=1, 2` the tagged sample recipe is returned. -/
theorem claim5_filter_intersection_witness :
    rcp1 ∈ listRecipes sampleStore 1 (some "1, 2") none :=
  (claim5_filter_intersection sampleStore 1 "1, 2" rcp1).1.mpr
    ⟨by simp [sampleStore], rfl, 1, by simp [rcp1], by decide⟩

/-- C6: a full update (PUT) whose body omits the `tags` field sets the
recipe's tag set to empty — both in the response row and in the store —
regardless of the tags the recipe had before. -/
theorem claim6_put_clears_tags (st : Store) (auth : Option String) (rid : Nat)
    (d : RecipeWriteData) (r2 : Recipe) (st' : Store)
    (hnone : d.tags = none)
    (h : recipePutEndpoint st auth rid d = (.ok r2, st')) :
    r2.tags = [] ∧ ∀ x ∈ st'.recipes, x.id = rid → x.tags = [] := by
  cases hauth : authenticate st auth with
  | none => simp [recipePutEndpoint, hauth] at h
  | some uid =>
    cases hfind : st.recipes.find? (fun x => x.id == rid && x.userId == uid) with
    | none => simp [recipePutEndpoint, hauth, hfind] at h
    | some r =>
      by_cases hval : relationIdsValid st d.tags d.ingredients = true
      · simp [recipePutEndpoint, hauth, hfind, hval] at h
        rcases h with ⟨rfl, rfl⟩
        have htags : (applyPut r d).tags = [] := by simp [applyPut, hnone]
        refine ⟨htags, ?_⟩
        intro x hx hxid
        simp [storeRecipe, List.mem_map] at hx
        obtain ⟨y, hy, hxy⟩ := hx
        by_cases hyid : y.id = rid
        · rw [if_pos hyid] at hxy
          rw [← hxy]
          exact htags
        · rw [if_neg hyid] at hxy
          rw [← hxy] at hxid
          exact absurd hxid hyid
      · simp [recipePutEndpoint, hauth, hfind, hval] at h

/-- The full-update body of the `test_full_update_recipe` scenario: scalar
fields only, no relation lists. -/
def putData : RecipeWriteData :=
  { title := "Chicken tikka", timeMinutes := 60, priceCents := 10000
    tags := none, ingredients := none }

/-- The recipe expected after the full update of `rcp1`. -/
def putR2 : Recipe :=
  { rcp1 with
    title := "Chicken tikka"
    timeMinutes := 60
    priceCents := 10000
    tags := []
    ingredients := [] }

/-- The store expected after the full update of `rcp1`. -/
def putStore : Store :=
  { sampleStore with recipes := [putR2, rcp2, rcp3, rcpOther] }

/-- C6 witness: the sample PUT run clears the tag set of recipe 1. -/
theorem claim6_put_clears_tags_witness :
    putR2.tags = [] ∧ ∀ x ∈ putStore.recipes, x.id = 1 → x.tags = [] :=
  claim6_put_clears_tags sampleStore (some "tok1") 1 putData putR2 putStore
    rfl (by decide)

/-- C7: a PATCH changes exactly the supplied fields — a supplied title is
taken over while an omitted `time_minutes`, `price`, `tags` or
`ingredients` keeps its previous value — and a supplied tags list replaces
the tag set entirely. -/
theorem claim7_patch_frame (st : Store) (auth : Option String) (rid uid : Nat)
    (r : Recipe) (d : RecipePatchData)
    (hauth : authenticate st auth = some uid)
    (hfind : st.recipes.find? (fun x => x.id == rid && x.userId == uid) = some r)
    (hval : relationIdsValid st d.tags d.ingredients = true) :
    (recipePatchEndpoint st auth rid d).1 = .ok (applyPatch r d) ∧
    (∀ t, d.title = some t → (applyPatch r d).title = t) ∧
    (d.timeMinutes = none → (applyPatch r d).timeMinutes = r.timeMinutes) ∧
    (d.priceCents = none → (applyPatch r d).priceCents = r.priceCents) ∧
    (d.tags = none → (applyPatch r d).tags = r.tags) ∧
    (d.ingredients = none → (applyPatch r d).ingredients = r.ingredients) ∧
    (∀ ts, d.tags = some ts → (applyPatch r d).tags.toFinset = ts.toFinset) := by
  refine ⟨by simp [recipePatchEndpoint, hauth, hfind, hval], ?_, ?_, ?_, ?_, ?_, ?_⟩
  · intro t ht
    simp [applyPatch, ht]
  · intro hn
    simp [applyPatch, hn]
  · intro hn
    simp [applyPatch, hn]
  · intro hn
    simp [applyPatch, hn]
  · intro hn
    simp [applyPatch, hn]
  · intro ts hts
    simp [applyPatch, hts, toFinset_dedup_list]

/-- The PATCH body of the `test_partial_update_recipe` scenario: a new
title plus a replacement tag list. -/
def patchData : RecipePatchData :=
  { title := some "Chicken tikka", timeMinutes := none, priceCents := none
    tags := some [2], ingredients := none }

/-- C7 witness: the sample PATCH run answers with the updated recipe and
its tag set becomes exactly the supplied one. -/
theorem claim7_patch_frame_witness :
    (recipePatchEndpoint sampleStore (some "tok1") 1 patchData).1
      = Response.ok (applyPatch rcp1 patchData) ∧
    (applyPatch rcp1 patchData).tags.toFinset = ([2] : List Nat).toFinset :=
  have h := claim7_patch_frame sampleStore (some "tok1") 1 1 rcp1 patchData
    rfl (by decide) (by decide)
  ⟨h.1, h.2.2.2.2.2.2 [2] rfl⟩

/-- C8: creating a recipe with distinct existing tag ids and distinct
existing ingredient ids yields a recipe whose relation sets are exactly
the given lists, with as many members as ids supplied. -/
theorem claim8_create_relation_sets (st : Store) (auth : Option String)
    (d : RecipeWriteData) (tagIds ingIds : List Nat) (r : Recipe) (st' : Store)
    (htags : d.tags = some tagIds) (hings : d.ingredients = some ingIds)
    (hnd1 : tagIds.Nodup) (hnd2 : ingIds.Nodup)
    (h : recipeCreateEndpoint st auth d = (.created r, st')) :
    r.tags = tagIds ∧ r.ingredients = ingIds ∧
    r.tags.toFinset.card = tagIds.length ∧
    r.ingredients.toFinset.card = ingIds.length := by
  cases hauth : authenticate st auth with
  | none => simp [recipeCreateEndpoint, hauth] at h
  | some uid =>
    by_cases hval : relationIdsValid st d.tags d.ingredients = true
    · simp [recipeCreateEndpoint, hauth, hval] at h
      rcases h with ⟨rfl, rfl⟩
      have ht : (d.tags.getD []).dedup = tagIds := by
        rw [htags]
        exact hnd1.dedup
      have hi : (d.ingredients.getD []).dedup = ingIds := by
        rw [hings]
        exact hnd2.dedup
      refine ⟨ht, hi, ?_, ?_⟩
      · rw [ht]
        exact List.toFinset_card_of_nodup hnd1
      · rw [hi]
        exact List.toFinset_card_of_nodup hnd2
    · simp [recipeCreateEndpoint, hauth, hval] at h

/-- The create body of the `test_create_recipe_with_tags` scenario,
extended with both relation lists. -/
def createData : RecipeWriteData :=
  { title := "Cheesecake", timeMinutes := 30, priceCents := 500
    tags := some [1, 2], ingredients := some [1, 2] }

/-- The recipe expected from creating `createData` on the sample store. -/
def createdRcp : Recipe :=
  { id := 5, title := "Cheesecake", timeMinutes := 30, priceCents := 500
    userId := 1, image := none, tags := [1, 2], ingredients := [1, 2] }

/-- The store expected after creating `createData` on the sample store. -/
def createdStore : Store :=
  { sampleStore with recipes := [createdRcp, rcp1, rcp2, rcp3, rcpOther] }

/-- C8 witness: the sample create run with 2 tag ids and 2 ingredient ids
yields relation sets of exactly 2 members each. -/
theorem claim8_create_relation_sets_witness :
    createdRcp.tags = [1, 2] ∧ createdRcp.ingredients = [1, 2] ∧
    createdRcp.tags.toFinset.card = 2 ∧
    createdRcp.ingredients.toFinset.card = 2 :=
  claim8_create_relation_sets sampleStore (some "tok1") createData
    [1, 2] [1, 2] createdRcp createdStore rfl rfl
    (by decide) (by decide) (by decide)

/-- C9: an image upload whose payload is not a valid image is answered 400
and leaves the store — in particular the target's stored image, set or not
— exactly as it was, for the recipe sub-resource and the user sub-resource
alike. -/
theorem claim9_bad_image_rejected (st : Store) (auth : Option String)
    (rid uid : Nat) (r : Recipe) (u : User) (p : ImagePayload)
    (hbad : isValidImage p = false)
    (hauth : authenticate st auth = some uid)
    (hr : st.recipes.find? (fun x => x.id == rid && x.userId == uid) = some r)
    (hu : st.users.find? (fun x => x.id == uid) = some u) :
    recipeUploadImageEndpoint st auth rid p = (.badRequest, st) ∧
    userUploadImageEndpoint st auth p = (.badRequest, st) := by
  constructor
  · simp [recipeUploadImageEndpoint, hauth, hr, hbad]
  · simp [userUploadImageEndpoint, hauth, hu, hbad]

/-- C9 witness: the multipart payload "invalid" of the tests is rejected
with 400 and the sample store is untouched. -/
theorem claim9_bad_image_rejected_witness :
    recipeUploadImageEndpoint sampleStore (some "tok1") 1 ⟨"f.jpg", "invalid"⟩
      = (Response.badRequest, sampleStore) :=
  (claim9_bad_image_rejected sampleStore (some "tok1") 1 1 rcp1 u1
    ⟨"f.jpg", "invalid"⟩ (by decide) rfl (by decide) (by decide)).1

/-- C10: `UserSerializer.update` pops the password off the validated data
before the generic field update and calls `set_password` only when a
truthy (non-empty) password was supplied: a profile PATCH omitting the
password keeps the stored hash while the other supplied fields are taken
over, and a supplied non-empty password is stored hashed, never as the raw
value. -/
theorem claim10_update_password_handling (u : User) (d : UserPatchData) :
    (d.password = none →
      (userSerializerUpdate u d).passwordHash = u.passwordHash ∧
      (userSerializerUpdate u d).name = d.name.getD u.name ∧
      (userSerializerUpdate u d).email = d.email.getD u.email) ∧
    (∀ p, d.password = some p → p ≠ "" →
      (userSerializerUpdate u d).passwordHash = hashPassword p ∧
      (userSerializerUpdate u d).passwordHash ≠ p) := by
  constructor
  · intro hn
    simp [userSerializerUpdate, modelUpdate, hn]
  · intro p hp hne
    simp [userSerializerUpdate, modelUpdate, hp, hne]
    exact hashPassword_ne_raw p

/-- A profile PATCH body without a password, as in
`test_update_user_profile` minus the password field. -/
def dNoPass : UserPatchData :=
  { email := some "newtest@gawlowski.com.pl", password := none
    name := some "New Test API User", image := none }

/-- A profile PATCH body supplying only a new password. -/
def dPass : UserPatchData :=
  { email := none, password := some "newpassword1234"
    name := none, image := none }

/-- C10 witness: omitting the password keeps `u1`'s hash; supplying one
stores its hash. -/
theorem claim10_update_password_handling_witness :
    (userSerializerUpdate u1 dNoPass).passwordHash = u1.passwordHash ∧
    (userSerializerUpdate u1 dPass).passwordHash
      = hashPassword "newpassword1234" :=
  ⟨((claim10_update_password_handling u1 dNoPass).1 rfl).1,
   ((claim10_update_password_handling u1 dPass).2 "newpassword1234" rfl
     (by decide)).1⟩

end Cookiwoo
